import Mathlib

set_option maxHeartbeats 1000000
set_option maxRecDepth 4096

/- Formal model of src/libs/gl.h from the Papaya repository: a minimal
   immediate-mode OpenGL 2.1 helper layer (shader compilation, quad meshes,
   a draw orchestrator that saves and restores context state, and texture
   allocation).

   Embedding conventions:
   - every GPU call the source issues is recorded as a syntactic trace
     element (GLCall); the driver-side meaning of each call is a small-step
     transition (exec1) over an explicit context state (GLState);
   - C float values are modelled as exact rationals; GL enum values keep
     their numeric values from the OpenGL headers; the C cast from int32 to
     GLuint (used for vertex-attribute indices) is reduction mod 2^32;
   - the GLCHK macro wraps every call and immediately drains the driver
     error flag through gl.check_error; draining is modelled by drainError
     inside exec, and gl.check_error itself is embedded separately with its
     exact log output;
   - calls that fail per the OpenGL 2.1 error rules (invalid program handle,
     out-of-range attribute index, missing buffer data store, and so on)
     record an error code and leave the modelled context state unchanged;
     the surrounding call sequence always runs to completion, as in the
     source, where check_error logs and continues;
   - driver-chosen results of shader compilation and of attribute/uniform
     name resolution are a parameter (Driver) of compile_shader, since they
     depend on the shader source text, which this layer treats as opaque. -/

-- GL enum values, from the OpenGL 2.1 headers the source is compiled with.
abbrev GL_NO_ERROR : Nat := 0
abbrev GL_INVALID_ENUM : Nat := 0x0500
abbrev GL_INVALID_VALUE : Nat := 0x0501
abbrev GL_INVALID_OPERATION : Nat := 0x0502
abbrev GL_STACK_OVERFLOW : Nat := 0x0503
abbrev GL_STACK_UNDERFLOW : Nat := 0x0504
abbrev GL_OUT_OF_MEMORY : Nat := 0x0505
abbrev GL_INVALID_FRAMEBUFFER_OPERATION : Nat := 0x0506
abbrev GL_TEXTURE_2D : Nat := 0x0DE1
abbrev GL_ARRAY_BUFFER : Nat := 0x8892
abbrev GL_BLEND : Nat := 0x0BE2
abbrev GL_CULL_FACE : Nat := 0x0B44
abbrev GL_DEPTH_TEST : Nat := 0x0B71
abbrev GL_SCISSOR_TEST : Nat := 0x0C11
abbrev GL_FUNC_ADD : Nat := 0x8006
abbrev GL_SRC_ALPHA : Nat := 0x0302
abbrev GL_ONE_MINUS_SRC_ALPHA : Nat := 0x0303
abbrev GL_CURRENT_PROGRAM : Nat := 0x8B8D
abbrev GL_TEXTURE_BINDING_2D : Nat := 0x8069
abbrev GL_FLOAT : Nat := 0x1406
abbrev GL_UNSIGNED_BYTE : Nat := 0x1401
abbrev GL_TRIANGLES : Nat := 0x0004
abbrev GL_LINE_LOOP : Nat := 0x0002
abbrev GL_LINEAR : Nat := 0x2601
abbrev GL_RGBA : Nat := 0x1908
abbrev GL_RGBA8 : Nat := 0x8058
abbrev GL_TEXTURE_MIN_FILTER : Nat := 0x2801
abbrev GL_TEXTURE_MAG_FILTER : Nat := 0x2800

-- Vec2 from types.h: two floats, modelled as exact rationals.
structure Vec2 where
  x : Rat
  y : Rat
deriving DecidableEq, Repr

-- Color from types.h: four float components.
structure Color where
  r : Rat
  g : Rat
  b : Rat
  a : Rat
deriving DecidableEq, Repr

/- ImDrawVert: pos (2 floats, byte offset 0), uv (2 floats, byte offset 8),
   col (packed 32-bit RGBA, byte offset 16); sizeof(ImDrawVert) = 20. -/
structure ImDrawVert where
  pos : Vec2
  uv : Vec2
  col : Nat
deriving DecidableEq, Repr

abbrev sizeof_ImDrawVert : Nat := 20
abbrev offsetof_pos : Nat := 0
abbrev offsetof_uv : Nat := 8
abbrev offsetof_col : Nat := 16

-- struct Shader from gl.h; the two slot tables are int32[8] arrays.
structure Shader where
  handle : Nat
  attrib_count : Int
  uniform_count : Int
  attribs : List Int
  uniforms : List Int
deriving DecidableEq, Repr

-- struct Mesh from gl.h.
structure Mesh where
  is_line_loop : Bool
  vbo_size : Nat
  index_count : Nat
  vbo_handle : Nat
  elements_handle : Nat
deriving DecidableEq, Repr

/- A uniform argument of draw_mesh: the UniformType_ tag from the variadic
   argument list together with the typed payload that follows it. -/
inductive UniformArg where
  | float (v : Rat)
  | vec2 (v : Vec2)
  | matrix4 (m : List Rat)
  | color (c : Color)
deriving DecidableEq, Repr

-- A value held in a uniform location of a program object.
inductive UniformVal where
  | f1 (v : Rat)
  | f2 (x y : Rat)
  | m4 (m : List Rat)
  | f4 (r g b a : Rat)
deriving DecidableEq, Repr

-- Configuration of one vertex attribute stream (glVertexAttribPointer).
structure AttribCfg where
  size : Nat
  type : Nat
  normalized : Bool
  stride : Nat
  offset : Nat
  buffer : Nat
deriving DecidableEq, Repr

/- The syntax of the GPU calls issued by gl.h, one constructor per GL entry
   point used by the source.  Buffer sizes and offsets are measured in
   ImDrawVert units (the source always transfers whole vertices). -/
inductive GLCall where
  | getIntegerv (pname : Nat)
  | enable (cap : Nat)
  | disable (cap : Nat)
  | blendEquation (mode : Nat)
  | blendFunc (sfactor dfactor : Nat)
  | bindBuffer (target : Nat) (buffer : Nat)
  | useProgram (program : Nat)
  | uniform1f (location : Int) (v : Rat)
  | uniform2f (location : Int) (x y : Rat)
  | uniformMatrix4fv (location : Int) (m : List Rat)
  | uniform4f (location : Int) (r g b a : Rat)
  | enableVertexAttribArray (index : Int)
  | vertexAttribPointer (index : Int) (size : Nat) (type : Nat)
      (normalized : Bool) (stride : Nat) (offset : Nat)
  | lineWidth (w : Rat)
  | drawArrays (mode : Nat) (first : Int) (count : Nat)
  | bindTexture (target : Nat) (texture : Nat)
  | genBuffers
  | bufferData (target : Nat) (sizeVerts : Nat) (usage : Nat)
  | bufferSubData (target : Nat) (offsetVerts : Nat) (verts : List ImDrawVert)
  | genTextures
  | texParameteri (target pname param : Nat)
  | texImage2D (target : Nat) (level : Nat) (internalformat : Nat)
      (width height : Int) (border : Nat) (format type : Nat)
      (data : Option (List Nat))
deriving DecidableEq, Repr

/- The modelled GL context state: the pieces of global driver state that the
   calls above read or write.  validPrograms is the set of program names that
   glUseProgram can make current (names of successfully linked programs);
   nextBufferName and nextTextureName model the fresh names handed out by
   glGenBuffers and glGenTextures. -/
structure GLState where
  currentProgram : Nat
  textureBinding2D : Nat
  arrayBufferBinding : Nat
  blendEnabled : Bool
  cullFaceEnabled : Bool
  depthTestEnabled : Bool
  scissorTestEnabled : Bool
  blendEquationMode : Nat
  blendSrc : Nat
  blendDst : Nat
  lineWidth : Rat
  maxVertexAttribs : Nat
  validPrograms : List Nat
  enabledAttribs : List Nat
  attribConfigs : List (Nat × AttribCfg)
  uniformVals : List ((Nat × Int) × UniformVal)
  buffers : List (Nat × List ImDrawVert)
  nextBufferName : Nat
  nextTextureName : Nat
  errorFlag : Nat
deriving DecidableEq, Repr

-- Association-list helpers for the keyed stores above.
def setA {κ α : Type} [DecidableEq κ] (k : κ) (v : α) : List (κ × α) → List (κ × α)
  | [] => [(k, v)]
  | kv :: rest => if kv.1 = k then (k, v) :: rest else kv :: setA k v rest

def getA {κ α : Type} [DecidableEq κ] (k : κ) : List (κ × α) → Option α
  | [] => none
  | kv :: rest => if kv.1 = k then some kv.2 else getA k rest

def insertIfAbsent (u : Nat) (l : List Nat) : List Nat :=
  if u ∈ l then l else u :: l

-- The C cast from int32 to GLuint: reduction mod 2^32.
def intToUInt32 (i : Int) : Nat := (i % (4294967296 : Int)).toNat

-- Vertex contents of a freshly allocated (glBufferData with null) store are
-- undefined; the model fills them with a fixed placeholder vertex.
def undefVert : ImDrawVert := { pos := { x := 0, y := 0 }, uv := { x := 0, y := 0 }, col := 0 }

/- Record a driver error: the flag keeps the first error until it is drained
   by glGetError (OpenGL 2.1, section 2.5). -/
def recordError (s : GLState) (e : Nat) : GLState :=
  if s.errorFlag = GL_NO_ERROR then { s with errorFlag := e } else s

def glEnableCap (cap : Nat) (s : GLState) : GLState :=
  if cap = GL_BLEND then { s with blendEnabled := true }
  else if cap = GL_CULL_FACE then { s with cullFaceEnabled := true }
  else if cap = GL_DEPTH_TEST then { s with depthTestEnabled := true }
  else if cap = GL_SCISSOR_TEST then { s with scissorTestEnabled := true }
  else recordError s GL_INVALID_ENUM

def glDisableCap (cap : Nat) (s : GLState) : GLState :=
  if cap = GL_BLEND then { s with blendEnabled := false }
  else if cap = GL_CULL_FACE then { s with cullFaceEnabled := false }
  else if cap = GL_DEPTH_TEST then { s with depthTestEnabled := false }
  else if cap = GL_SCISSOR_TEST then { s with scissorTestEnabled := false }
  else recordError s GL_INVALID_ENUM

/- glUniform* semantics (OpenGL 2.1, section 2.15.3): with no current
   program the call errors; location -1 is silently ignored and changes no
   uniform variable; otherwise the value is stored in the current program
   object at that location. -/
def glUniformSet (loc : Int) (v : UniformVal) (s : GLState) : GLState :=
  if s.currentProgram = 0 then recordError s GL_INVALID_OPERATION
  else if loc = -1 then s
  else if 0 ≤ loc then
    { s with uniformVals := setA (s.currentProgram, loc) v s.uniformVals }
  else recordError s GL_INVALID_OPERATION

/- One step of driver semantics for each call the source issues.  A call
   that errors leaves the modelled state unchanged apart from the error
   flag. -/
def exec1 (s : GLState) (c : GLCall) : GLState :=
  match c with
  | .getIntegerv _ => s
  | .enable cap => glEnableCap cap s
  | .disable cap => glDisableCap cap s
  | .blendEquation m => { s with blendEquationMode := m }
  | .blendFunc sf df => { s with blendSrc := sf, blendDst := df }
  | .bindBuffer t b =>
      if t = GL_ARRAY_BUFFER then { s with arrayBufferBinding := b }
      else recordError s GL_INVALID_ENUM
  | .useProgram p =>
      if p = 0 ∨ p ∈ s.validPrograms then { s with currentProgram := p }
      else recordError s GL_INVALID_OPERATION
  | .uniform1f loc v => glUniformSet loc (.f1 v) s
  | .uniform2f loc x y => glUniformSet loc (.f2 x y) s
  | .uniformMatrix4fv loc m => glUniformSet loc (.m4 m) s
  | .uniform4f loc r g b a => glUniformSet loc (.f4 r g b a) s
  | .enableVertexAttribArray idx =>
      let u := intToUInt32 idx
      if u < s.maxVertexAttribs then
        { s with enabledAttribs := insertIfAbsent u s.enabledAttribs }
      else recordError s GL_INVALID_VALUE
  | .vertexAttribPointer idx size ty norm stride off =>
      let u := intToUInt32 idx
      let cfg : AttribCfg :=
        { size := size, type := ty, normalized := norm, stride := stride,
          offset := off, buffer := s.arrayBufferBinding }
      if u < s.maxVertexAttribs then
        { s with attribConfigs := setA u cfg s.attribConfigs }
      else recordError s GL_INVALID_VALUE
  | .lineWidth w =>
      if 0 < w then { s with lineWidth := w } else recordError s GL_INVALID_VALUE
  | .drawArrays _ _ _ => s
  | .bindTexture t tex =>
      if t = GL_TEXTURE_2D then { s with textureBinding2D := tex }
      else recordError s GL_INVALID_ENUM
  | .genBuffers => { s with nextBufferName := s.nextBufferName + 1 }
  | .bufferData t n _ =>
      if t = GL_ARRAY_BUFFER then
        if s.arrayBufferBinding = 0 then recordError s GL_INVALID_OPERATION
        else
          let store := setA s.arrayBufferBinding (List.replicate n undefVert) s.buffers
          { s with buffers := store }
      else recordError s GL_INVALID_ENUM
  | .bufferSubData t off verts =>
      if t = GL_ARRAY_BUFFER then
        if s.arrayBufferBinding = 0 then recordError s GL_INVALID_OPERATION
        else
          match getA s.arrayBufferBinding s.buffers with
          | none => recordError s GL_INVALID_VALUE
          | some data =>
              if off + verts.length ≤ data.length then
                let store :=
                  setA s.arrayBufferBinding
                    (data.take off ++ verts ++ data.drop (off + verts.length))
                    s.buffers
                { s with buffers := store }
              else recordError s GL_INVALID_VALUE
      else recordError s GL_INVALID_ENUM
  | .genTextures => { s with nextTextureName := s.nextTextureName + 1 }
  | .texParameteri _ _ _ => s
  | .texImage2D _ _ _ _ _ _ _ _ _ => s

/- Each source call is wrapped in GLCHK, whose check_error drains the error
   flag via glGetError before the next call runs. -/
def drainError (s : GLState) : GLState := { s with errorFlag := GL_NO_ERROR }

def exec (s : GLState) (l : List GLCall) : GLState :=
  l.foldl (fun t c => drainError (exec1 t c)) s

-- The category table of gl::check_error (consulted when an error is set).
def error_category (error : Nat) : String :=
  if error = GL_INVALID_ENUM then "Invalid enum"
  else if error = GL_INVALID_VALUE then "Invalid value"
  else if error = GL_INVALID_OPERATION then "Invalid operation"
  else if error = GL_INVALID_FRAMEBUFFER_OPERATION then "Invalid framebuffer operation"
  else if error = GL_OUT_OF_MEMORY then "Out of memory"
  else if error = GL_STACK_UNDERFLOW then "Stack underflow"
  else if error = GL_STACK_OVERFLOW then "Stack overflow"
  else "Undefined error"

namespace gl

/- gl::check_error(expr, file, line): drains one error code from the driver
   (glGetError also resets the flag), is silent on GL_NO_ERROR, and
   otherwise prints the two diagnostic lines of the source and returns. -/
def check_error (expr file : String) (line : Int) (s : GLState) : GLState × List String :=
  let error := s.errorFlag
  let s2 := { s with errorFlag := GL_NO_ERROR }
  if error = GL_NO_ERROR then (s2, [])
  else
    (s2,
     ["OpenGL Error: " ++ error_category error ++ " in " ++ file ++ ":" ++ toString line,
      "    --- Expression: " ++ expr])

end gl

/- The driver-determined outcomes of one compile_shader call: the fresh
   program name returned by glCreateProgram, the compile status and info log
   of the two shader objects, and the post-link location lookups
   (glGetAttribLocation and glGetUniformLocation return a non-negative
   location for declared names and -1 otherwise, modelled as Option Nat). -/
structure Driver where
  programName : Nat
  vertOk : Bool
  fragOk : Bool
  vertLog : String
  fragLog : String
  attribLoc : String → Option Nat
  uniformLoc : String → Option Nat

-- glGetAttribLocation and glGetUniformLocation results as int32 values.
def locOf (r : Option Nat) : Int :=
  match r with
  | some l => Int.ofNat l
  | none => -1

-- print_compilation_errors from gl.h: on a failed compile, the header line,
-- the driver info log, and the closing newline of the source printf calls.
def print_compilation_errors (ok : Bool) (log : String) (type file : String)
    (line : Int) : List String :=
  if ok then []
  else ["Compilation error in " ++ type ++ " shader in " ++ file ++ ":" ++ toString line,
        log, ""]

/- The name-resolution loops of gl::compile_shader: for each requested name,
   store the driver-resolved location in the next slot of the table, and log
   a diagnostic when the lookup returns the -1 sentinel.  kindMsg is
   "Attribute" or "Uniform". -/
def resolve_slots (lookup : String → Option Nat) (kindMsg file : String) (line : Int) :
    List String → Nat → List Int → List Int × List String
  | [], _, slots => (slots, [])
  | name :: rest, i, slots =>
      let loc := locOf (lookup name)
      let slots2 := slots.set i loc
      let here :=
        if loc = -1 then
          [kindMsg ++ " " ++ name ++ " not found in shader at " ++ file ++ ":" ++ toString line]
        else []
      let next := resolve_slots lookup kindMsg file line rest (i + 1) slots2
      (next.1, here ++ next.2)

namespace gl

/- gl::compile_shader: creates and links the program (driver outcomes given
   by drv), reports compilation errors, then resolves the attribute and
   uniform name lists positionally into the two slot tables.  The variadic
   name arguments are modelled as lists; per the calling convention the
   count arguments equal the list lengths.  Returns the updated Shader and
   the diagnostic log. -/
def compile_shader (shader : Shader) (drv : Driver) (file : String) (line : Int)
    (vert frag : String) (attrib_names uniform_names : List String) :
    Shader × List String :=
  let log0 := print_compilation_errors drv.vertOk drv.vertLog "vertex" file line
           ++ print_compilation_errors drv.fragOk drv.fragLog "fragment" file line
  let sh1 := { shader with
                 handle := drv.programName,
                 attrib_count := Int.ofNat attrib_names.length,
                 uniform_count := Int.ofNat uniform_names.length }
  let ra := resolve_slots drv.attribLoc "Attribute" file line attrib_names 0 sh1.attribs
  let ru := resolve_slots drv.uniformLoc "Uniform" file line uniform_names 0 sh1.uniforms
  ({ sh1 with attribs := ra.1, uniforms := ru.1 }, log0 ++ ra.2 ++ ru.2)

/- gl::set_vertex_attribs: enable one attribute array per declared slot
   (including slots holding the -1 sentinel, cast to GLuint), then configure
   the position and uv streams, and the packed-color stream when a third
   attribute was declared.  Purely a call emitter; its driver effect is
   exec applied to this list. -/
def set_vertex_attribs (shader : Shader) : List GLCall :=
  (List.range shader.attrib_count.toNat).map
      (fun i => GLCall.enableVertexAttribArray (shader.attribs.getD i 0))
  ++ [GLCall.vertexAttribPointer (shader.attribs.getD 0 0) 2 GL_FLOAT false
        sizeof_ImDrawVert offsetof_pos,
      GLCall.vertexAttribPointer (shader.attribs.getD 1 0) 2 GL_FLOAT false
        sizeof_ImDrawVert offsetof_uv]
  ++ (if 2 < shader.attrib_count then
        [GLCall.vertexAttribPointer (shader.attribs.getD 2 0) 4 GL_UNSIGNED_BYTE true
           sizeof_ImDrawVert offsetof_col]
      else [])

/- The six vertices gl::transform_quad computes for rectangle (pos, size):
   two triangles covering it, with matching unit-square UV corners and
   full-opacity white packed color. -/
def quad_verts (pos size : Vec2) : List ImDrawVert :=
  let x1 := pos.x
  let x2 := pos.x + size.x
  let y1 := pos.y
  let y2 := pos.y + size.y
  [{ pos := { x := x1, y := y2 }, uv := { x := 0, y := 1 }, col := 0xffffffff },
   { pos := { x := x1, y := y1 }, uv := { x := 0, y := 0 }, col := 0xffffffff },
   { pos := { x := x2, y := y2 }, uv := { x := 1, y := 1 }, col := 0xffffffff },
   { pos := { x := x2, y := y1 }, uv := { x := 1, y := 0 }, col := 0xffffffff },
   { pos := { x := x2, y := y2 }, uv := { x := 1, y := 1 }, col := 0xffffffff },
   { pos := { x := x1, y := y1 }, uv := { x := 0, y := 0 }, col := 0xffffffff }]

/- gl::transform_quad: binds the mesh vertex buffer and overwrites its full
   contents with the six recomputed vertices via glBufferSubData.  The mesh
   itself is not written (the source only reads vbo_handle). -/
def transform_quad (s : GLState) (mesh : Mesh) (pos size : Vec2) :
    Mesh × GLState × List GLCall :=
  let calls := [GLCall.bindBuffer GL_ARRAY_BUFFER mesh.vbo_handle,
                GLCall.bufferSubData GL_ARRAY_BUFFER 0 (quad_verts pos size)]
  (mesh, exec s calls, calls)

/- gl::init_quad: generates a buffer name into mesh.vbo_handle, allocates a
   six-vertex data store with the given usage hint, sets index_count to 6,
   and performs the initial transform_quad write. -/
def init_quad (s : GLState) (mesh : Mesh) (pos size : Vec2) (usage : Nat) :
    Mesh × GLState × List GLCall :=
  let vbo := s.nextBufferName
  let mesh1 := { mesh with vbo_handle := vbo }
  let calls := [GLCall.genBuffers,
                GLCall.bindBuffer GL_ARRAY_BUFFER mesh1.vbo_handle,
                GLCall.bufferData GL_ARRAY_BUFFER 6 usage]
  let s1 := exec s calls
  let mesh2 := { mesh1 with index_count := 6 }
  let r := transform_quad s1 mesh2 pos size
  (r.1, r.2.1, calls ++ r.2.2)

/- The uniform-upload loop of gl::draw_mesh: walk the variadic argument list
   in order; the i-th argument is dispatched on its type tag and uploaded to
   the location stored in the i-th uniform slot of the shader. -/
def draw_uniform_calls (shader : Shader) : List UniformArg → Nat → List GLCall
  | [], _ => []
  | .float v :: rest, i =>
      GLCall.uniform1f (shader.uniforms.getD i 0) v
        :: draw_uniform_calls shader rest (i + 1)
  | .matrix4 m :: rest, i =>
      GLCall.uniformMatrix4fv (shader.uniforms.getD i 0) m
        :: draw_uniform_calls shader rest (i + 1)
  | .vec2 v :: rest, i =>
      GLCall.uniform2f (shader.uniforms.getD i 0) v.x v.y
        :: draw_uniform_calls shader rest (i + 1)
  | .color c :: rest, i =>
      GLCall.uniform4f (shader.uniforms.getD i 0) c.r c.g c.b c.a
        :: draw_uniform_calls shader rest (i + 1)

-- The opening calls of gl::draw_mesh: the two state snapshots, the fixed
-- blend/cull/depth policy, the scissor choice, and the buffer/program binds.
def draw_setup_calls (mesh : Mesh) (shader : Shader) (scissor : Bool) : List GLCall :=
  [GLCall.getIntegerv GL_CURRENT_PROGRAM,
   GLCall.getIntegerv GL_TEXTURE_BINDING_2D,
   GLCall.enable GL_BLEND,
   GLCall.blendEquation GL_FUNC_ADD,
   GLCall.blendFunc GL_SRC_ALPHA GL_ONE_MINUS_SRC_ALPHA,
   GLCall.disable GL_CULL_FACE,
   GLCall.disable GL_DEPTH_TEST,
   if scissor then GLCall.enable GL_SCISSOR_TEST else GLCall.disable GL_SCISSOR_TEST,
   GLCall.bindBuffer GL_ARRAY_BUFFER mesh.vbo_handle,
   GLCall.useProgram shader.handle]

-- The closing calls of gl::draw_mesh: line width, the draw itself, and the
-- "Restore modified state" block of the source.
def draw_finish_calls (mesh : Mesh) (last_program last_texture : Nat) : List GLCall :=
  [GLCall.lineWidth 2,
   GLCall.drawArrays (if mesh.is_line_loop then GL_LINE_LOOP else GL_TRIANGLES)
     0 mesh.index_count,
   GLCall.bindBuffer GL_ARRAY_BUFFER 0,
   GLCall.useProgram last_program,
   GLCall.disable GL_SCISSOR_TEST,
   GLCall.disable GL_BLEND,
   GLCall.bindTexture GL_TEXTURE_2D last_texture]

/- gl::draw_mesh: snapshot the current program and 2D texture binding
   (glGetIntegerv reads them from the context), issue the whole call
   sequence of the source in order, and return the resulting context state
   together with the trace.  Every call is GLCHK-wrapped; a failing call
   records an error that check_error logs, and the sequence continues. -/
def draw_mesh (s : GLState) (mesh : Mesh) (shader : Shader) (scissor : Bool)
    (args : List UniformArg) : GLState × List GLCall :=
  let last_program := s.currentProgram
  let last_texture := s.textureBinding2D
  let calls := draw_setup_calls mesh shader scissor
            ++ draw_uniform_calls shader args 0
            ++ (set_vertex_attribs shader
            ++ draw_finish_calls mesh last_program last_texture)
  (exec s calls, calls)

/- gl::allocate_tex: generates a texture name, binds it to the 2D target,
   sets linear min/mag filtering, uploads an RGBA8 image (or reserves
   storage when data is null), and returns the new name.  The previous 2D
   texture binding is neither snapshotted nor restored. -/
def allocate_tex (s : GLState) (width height : Int) (data : Option (List Nat)) :
    Nat × GLState × List GLCall :=
  let tex := s.nextTextureName
  let calls := [GLCall.genTextures,
                GLCall.bindTexture GL_TEXTURE_2D tex,
                GLCall.texParameteri GL_TEXTURE_2D GL_TEXTURE_MIN_FILTER GL_LINEAR,
                GLCall.texParameteri GL_TEXTURE_2D GL_TEXTURE_MAG_FILTER GL_LINEAR,
                GLCall.texImage2D GL_TEXTURE_2D 0 GL_RGBA8 width height 0 GL_RGBA
                  GL_UNSIGNED_BYTE data]
  (tex, exec s calls, calls)

end gl

-- ======================================================================
-- Auxiliary definitions used by the theorems below
-- ======================================================================

-- The per-buffer allocation sizes of the buffer store, in vertex units.
def bufferSizes (l : List (Nat × List ImDrawVert)) : List (Nat × Nat) :=
  l.map (fun kv => (kv.1, kv.2.length))

-- Sample concrete values used by the witness theorems below.
def sampleState : GLState :=
  { currentProgram := 0, textureBinding2D := 0, arrayBufferBinding := 0,
    blendEnabled := false, cullFaceEnabled := false, depthTestEnabled := true,
    scissorTestEnabled := false, blendEquationMode := GL_FUNC_ADD,
    blendSrc := 1, blendDst := 0, lineWidth := 1, maxVertexAttribs := 16,
    validPrograms := [7], enabledAttribs := [], attribConfigs := [],
    uniformVals := [], buffers := [(1, List.replicate 6 undefVert)],
    nextBufferName := 2, nextTextureName := 3, errorFlag := GL_NO_ERROR }

def sampleMesh : Mesh :=
  { is_line_loop := false, vbo_size := 0, index_count := 6, vbo_handle := 1,
    elements_handle := 0 }

-- A call that only selects a buffer or overwrites a sub-range of its
-- existing data store (never allocates or resizes one).
def isSubRangeWrite : GLCall → Bool
  | .bindBuffer _ _ => true
  | .bufferSubData _ _ _ => true
  | _ => false

-- The seven error codes gl::check_error maps to named categories.
def knownErrorCodes : List Nat :=
  [GL_INVALID_ENUM, GL_INVALID_VALUE, GL_INVALID_OPERATION,
   GL_INVALID_FRAMEBUFFER_OPERATION, GL_OUT_OF_MEMORY,
   GL_STACK_UNDERFLOW, GL_STACK_OVERFLOW]

-- A concrete shader record and driver for the witnesses: the driver
-- resolves Position, UV and ProjMtx and fails to resolve Color.
def sampleShader0 : Shader :=
  { handle := 0, attrib_count := 0, uniform_count := 0,
    attribs := List.replicate 8 0, uniforms := List.replicate 8 0 }

def sampleDriver : Driver :=
  { programName := 7, vertOk := true, fragOk := true, vertLog := "", fragLog := "",
    attribLoc := fun n => if n = "Position" then some 0 else if n = "UV" then some 1 else none,
    uniformLoc := fun n => if n = "ProjMtx" then some 3 else none }

-- Twice the signed area of the triangle a b c: positive exactly when the
-- vertices are in counter-clockwise order (standard orientation).
def cross2 (a b p : Vec2) : Rat :=
  (b.x - a.x) * (p.y - a.y) - (b.y - a.y) * (p.x - a.x)

-- Membership of point p in the (counter-clockwise) triangle a b c, as the
-- conjunction of the three half-plane conditions.
def inTri (a b c p : Vec2) : Prop :=
  0 ≤ cross2 a b p ∧ 0 ≤ cross2 b c p ∧ 0 ≤ cross2 c a p

-- A full-opacity white vertex at position (px, py) with UV (ux, uy).
def mkVert (px py ux uy : Rat) : ImDrawVert :=
  { pos := { x := px, y := py }, uv := { x := ux, y := uy }, col := 0xffffffff }

-- Concrete rectangle used by the geometry witness.
def wPos : Vec2 := { x := 1, y := 2 }

def wSize : Vec2 := { x := 3, y := 4 }

-- A shader whose single uniform slot holds the "not found" sentinel.
def sentinelShader : Shader :=
  { handle := 7, attrib_count := 2, uniform_count := 1,
    attribs := [0, 1, 0, 0, 0, 0, 0, 0], uniforms := [-1, 0, 0, 0, 0, 0, 0, 0] }

-- The GL call the uniform loop of draw_mesh issues for one argument, given
-- the resolved location of its positional slot.
def uniformCallOf (loc : Int) : UniformArg → GLCall
  | .float v => GLCall.uniform1f loc v
  | .matrix4 m => GLCall.uniformMatrix4fv loc m
  | .vec2 v => GLCall.uniform2f loc v.x v.y
  | .color c => GLCall.uniform4f loc c.r c.g c.b c.a

-- The shader of the specification scenario: three declared attributes of
-- which the third (color) resolved to the sentinel, one uniform.
def colorSentinelShader : Shader :=
  { handle := 8, attrib_count := 3, uniform_count := 1,
    attribs := [0, 1, -1, 0, 0, 0, 0, 0], uniforms := [3, 0, 0, 0, 0, 0, 0, 0] }

-- Calls whose driver semantics never touches the global pipeline state
-- (they only affect uniform values, attribute arrays or the error flag).
def isPassive : GLCall → Bool
  | .getIntegerv _ => true
  | .uniform1f _ _ => true
  | .uniform2f _ _ _ => true
  | .uniformMatrix4fv _ _ => true
  | .uniform4f _ _ _ _ _ => true
  | .enableVertexAttribArray _ => true
  | .vertexAttribPointer _ _ _ _ _ _ => true
  | .drawArrays _ _ _ => true
  | _ => false

-- A shader whose handle is not a valid program name: binding it fails
-- mid-draw, exercising the partial-failure path of the Error Sentinel.
def badShader : Shader :=
  { handle := 99, attrib_count := 2, uniform_count := 1,
    attribs := [0, 1, 0, 0, 0, 0, 0, 0], uniforms := [-1, 0, 0, 0, 0, 0, 0, 0] }

-- ======================================================================
-- Theorems
-- ======================================================================

theorem exec_nil (s : GLState) : exec s [] = s := rfl

theorem exec_cons (s : GLState) (c : GLCall) (l : List GLCall) :
    exec s (c :: l) = exec (drainError (exec1 s c)) l := rfl

theorem exec_append (s : GLState) (a b : List GLCall) :
    exec s (a ++ b) = exec (exec s a) b := by
  simp [exec, List.foldl_append]

theorem getA_setA_eq {κ α : Type} [DecidableEq κ] (k : κ) (v : α) (l : List (κ × α)) :
    getA k (setA k v l) = some v := by
  induction l with
  | nil => simp [setA, getA]
  | cons kv rest ih =>
      by_cases h : kv.1 = k
      · simp [setA, getA, h]
      · simp [setA, getA, h, ih]

theorem getA_setA_ne {κ α : Type} [DecidableEq κ] (k k2 : κ) (v : α)
    (l : List (κ × α)) (h : k ≠ k2) : getA k2 (setA k v l) = getA k2 l := by
  induction l with
  | nil => simp [setA, getA, h]
  | cons kv rest ih =>
      by_cases hk : kv.1 = k
      · subst hk
        simp [setA, getA, h]
      · simp [setA, getA, hk, ih]

theorem bufferSizes_setA (k : Nat) (v d : List ImDrawVert)
    (l : List (Nat × List ImDrawVert)) (hget : getA k l = some d)
    (hlen : v.length = d.length) : bufferSizes (setA k v l) = bufferSizes l := by
  induction l with
  | nil => simp [getA] at hget
  | cons kv rest ih =>
      by_cases h : kv.1 = k
      · simp [getA, h] at hget
        subst hget
        simp [setA, bufferSizes, h, hlen]
      · simp [getA, h] at hget
        simp [setA, bufferSizes, h] at ih ⊢
        exact ih hget

/-- C10: gl::init_quad writes only the vertex-buffer handle (the freshly
generated buffer name), the vertex count (set to 6) and the buffer contents;
the is_line_loop, vbo_size and elements_handle fields of the mesh keep the
values they had before the call. -/
theorem init_quad_field_writes (s : GLState) (mesh : Mesh) (pos size : Vec2)
    (usage : Nat) (h0 : s.nextBufferName ≠ 0) :
    (gl.init_quad s mesh pos size usage).1.is_line_loop = mesh.is_line_loop ∧
    (gl.init_quad s mesh pos size usage).1.vbo_size = mesh.vbo_size ∧
    (gl.init_quad s mesh pos size usage).1.elements_handle = mesh.elements_handle ∧
    (gl.init_quad s mesh pos size usage).1.index_count = 6 ∧
    (gl.init_quad s mesh pos size usage).1.vbo_handle = s.nextBufferName ∧
    getA s.nextBufferName (gl.init_quad s mesh pos size usage).2.1.buffers =
      some (gl.quad_verts pos size) := by
  have hqlen : (gl.quad_verts pos size).length = 6 := rfl
  have hdrop : (List.replicate 6 undefVert).drop 6 = [] := rfl
  refine ⟨rfl, rfl, rfl, rfl, rfl, ?_⟩
  simp [gl.init_quad, gl.transform_quad, exec_cons, exec_nil, exec1, drainError,
        h0, hqlen, hdrop, getA_setA_eq]

/-- C10 witness: the theorem instantiated at a concrete state and mesh. -/
theorem init_quad_field_writes_witness :
    sampleState.nextBufferName ≠ 0 ∧
    ((gl.init_quad sampleState sampleMesh { x := 1, y := 2 } { x := 3, y := 4 } 0).1.is_line_loop
        = sampleMesh.is_line_loop ∧
     (gl.init_quad sampleState sampleMesh { x := 1, y := 2 } { x := 3, y := 4 } 0).1.vbo_size
        = sampleMesh.vbo_size ∧
     (gl.init_quad sampleState sampleMesh { x := 1, y := 2 } { x := 3, y := 4 } 0).1.elements_handle
        = sampleMesh.elements_handle ∧
     (gl.init_quad sampleState sampleMesh { x := 1, y := 2 } { x := 3, y := 4 } 0).1.index_count = 6 ∧
     (gl.init_quad sampleState sampleMesh { x := 1, y := 2 } { x := 3, y := 4 } 0).1.vbo_handle
        = sampleState.nextBufferName ∧
     getA sampleState.nextBufferName
        (gl.init_quad sampleState sampleMesh { x := 1, y := 2 } { x := 3, y := 4 } 0).2.1.buffers
        = some (gl.quad_verts { x := 1, y := 2 } { x := 3, y := 4 })) :=
  ⟨by decide,
   init_quad_field_writes sampleState sampleMesh { x := 1, y := 2 } { x := 3, y := 4 } 0 (by decide)⟩

theorem transform_quad_bufferSizes (s : GLState) (mesh : Mesh) (pos size : Vec2) :
    bufferSizes (gl.transform_quad s mesh pos size).2.1.buffers = bufferSizes s.buffers := by
  have hqlen : (gl.quad_verts pos size).length = 6 := rfl
  by_cases hb : mesh.vbo_handle = 0
  · simp [gl.transform_quad, exec_cons, exec_nil, exec1, drainError, hb, recordError]
  · cases hget : getA mesh.vbo_handle s.buffers with
    | none =>
        simp [gl.transform_quad, exec_cons, exec_nil, exec1, drainError, hb, hget,
              recordError]
    | some data =>
        by_cases hfit : (6 : Nat) ≤ data.length
        · have hlen :
              ((data.take 0 ++ gl.quad_verts pos size ++
                 data.drop (0 + (gl.quad_verts pos size).length)).length) = data.length := by
            simp [hqlen]
            omega
          simp [gl.transform_quad, exec_cons, exec_nil, exec1, drainError, hb, hget,
                hqlen, hfit]
          exact bufferSizes_setA _ _ data _ hget (by simpa [hqlen] using hlen)
        · simp [gl.transform_quad, exec_cons, exec_nil, exec1, drainError, hb, hget,
                hqlen, hfit, recordError]

/-- C8: calling gl::transform_quad twice with different rectangles leaves the
vertex count and buffer handle of the mesh unchanged, never changes the
allocation size of any buffer in the context, and issues only buffer-select
and sub-range-write calls (no buffer generation or reallocation). -/
theorem transform_quad_twice_stable (s : GLState) (mesh : Mesh) (p1 z1 p2 z2 : Vec2)
    (hdiff : (p1, z1) ≠ (p2, z2)) :
    (gl.transform_quad (gl.transform_quad s mesh p1 z1).2.1
        (gl.transform_quad s mesh p1 z1).1 p2 z2).1.index_count = mesh.index_count ∧
    (gl.transform_quad (gl.transform_quad s mesh p1 z1).2.1
        (gl.transform_quad s mesh p1 z1).1 p2 z2).1.vbo_handle = mesh.vbo_handle ∧
    bufferSizes (gl.transform_quad (gl.transform_quad s mesh p1 z1).2.1
        (gl.transform_quad s mesh p1 z1).1 p2 z2).2.1.buffers = bufferSizes s.buffers ∧
    (∀ c ∈ (gl.transform_quad s mesh p1 z1).2.2, isSubRangeWrite c = true) ∧
    (∀ c ∈ (gl.transform_quad (gl.transform_quad s mesh p1 z1).2.1
        (gl.transform_quad s mesh p1 z1).1 p2 z2).2.2, isSubRangeWrite c = true) := by
  refine ⟨rfl, rfl, ?_, ?_, ?_⟩
  · rw [transform_quad_bufferSizes, transform_quad_bufferSizes]
  · intro c hc
    simp [gl.transform_quad] at hc
    rcases hc with h | h <;> simp [h, isSubRangeWrite]
  · intro c hc
    simp [gl.transform_quad] at hc
    rcases hc with h | h <;> simp [h, isSubRangeWrite]

/-- C8 witness: the theorem instantiated at a concrete state, mesh and two
different rectangles. -/
theorem transform_quad_twice_stable_witness :
    (({ x := 0, y := 0 } : Vec2), ({ x := 2, y := 2 } : Vec2)) ≠
      (({ x := 1, y := 1 } : Vec2), ({ x := 3, y := 3 } : Vec2)) ∧
    ((gl.transform_quad (gl.transform_quad sampleState sampleMesh { x := 0, y := 0 } { x := 2, y := 2 }).2.1
        (gl.transform_quad sampleState sampleMesh { x := 0, y := 0 } { x := 2, y := 2 }).1
        { x := 1, y := 1 } { x := 3, y := 3 }).1.index_count = sampleMesh.index_count ∧
     (gl.transform_quad (gl.transform_quad sampleState sampleMesh { x := 0, y := 0 } { x := 2, y := 2 }).2.1
        (gl.transform_quad sampleState sampleMesh { x := 0, y := 0 } { x := 2, y := 2 }).1
        { x := 1, y := 1 } { x := 3, y := 3 }).1.vbo_handle = sampleMesh.vbo_handle ∧
     bufferSizes (gl.transform_quad (gl.transform_quad sampleState sampleMesh { x := 0, y := 0 } { x := 2, y := 2 }).2.1
        (gl.transform_quad sampleState sampleMesh { x := 0, y := 0 } { x := 2, y := 2 }).1
        { x := 1, y := 1 } { x := 3, y := 3 }).2.1.buffers = bufferSizes sampleState.buffers ∧
     (∀ c ∈ (gl.transform_quad sampleState sampleMesh { x := 0, y := 0 } { x := 2, y := 2 }).2.2,
        isSubRangeWrite c = true) ∧
     (∀ c ∈ (gl.transform_quad (gl.transform_quad sampleState sampleMesh { x := 0, y := 0 } { x := 2, y := 2 }).2.1
        (gl.transform_quad sampleState sampleMesh { x := 0, y := 0 } { x := 2, y := 2 }).1
        { x := 1, y := 1 } { x := 3, y := 3 }).2.2, isSubRangeWrite c = true)) :=
  ⟨by decide,
   transform_quad_twice_stable sampleState sampleMesh
     { x := 0, y := 0 } { x := 2, y := 2 } { x := 1, y := 1 } { x := 3, y := 3 } (by decide)⟩

/-- C9: gl::allocate_tex returns with the newly generated texture name still
bound to the 2D texture target; it never snapshots the previous binding (no
glGetIntegerv of GL_TEXTURE_BINDING_2D in its trace), so the caller-visible
2D texture binding changes to the new handle as a side effect. -/
theorem allocate_tex_binding_side_effect (s : GLState) (width height : Int)
    (data : Option (List Nat)) (hfresh : s.textureBinding2D ≠ s.nextTextureName) :
    (gl.allocate_tex s width height data).1 = s.nextTextureName ∧
    (gl.allocate_tex s width height data).2.1.textureBinding2D =
      (gl.allocate_tex s width height data).1 ∧
    (gl.allocate_tex s width height data).2.1.textureBinding2D ≠ s.textureBinding2D ∧
    (∀ c ∈ (gl.allocate_tex s width height data).2.2,
        c ≠ GLCall.getIntegerv GL_TEXTURE_BINDING_2D) := by
  have hbind : (gl.allocate_tex s width height data).2.1.textureBinding2D =
      s.nextTextureName := by
    simp [gl.allocate_tex, exec_cons, exec_nil, exec1, drainError]
  refine ⟨rfl, ?_, ?_, ?_⟩
  · exact hbind
  · rw [hbind]
    exact fun h => hfresh h.symm
  · intro c hc
    simp [gl.allocate_tex] at hc
    rcases hc with h | h | h | h | h <;> simp [h]

/-- C9 witness: the theorem instantiated at a concrete state. -/
theorem allocate_tex_binding_side_effect_witness :
    sampleState.textureBinding2D ≠ sampleState.nextTextureName ∧
    ((gl.allocate_tex sampleState 64 64 none).1 = sampleState.nextTextureName ∧
     (gl.allocate_tex sampleState 64 64 none).2.1.textureBinding2D =
       (gl.allocate_tex sampleState 64 64 none).1 ∧
     (gl.allocate_tex sampleState 64 64 none).2.1.textureBinding2D ≠
       sampleState.textureBinding2D ∧
     (∀ c ∈ (gl.allocate_tex sampleState 64 64 none).2.2,
        c ≠ GLCall.getIntegerv GL_TEXTURE_BINDING_2D)) :=
  ⟨by decide, allocate_tex_binding_side_effect sampleState 64 64 none (by decide)⟩

/-- C7 counterexample: at a concrete pending GL_INVALID_ENUM error,
gl::check_error does not log the line claimed by the specification, namely
the bare category with file and line; the actual first line carries the
leading tag of the printf format of the source, and the expression line is
indented. -/
theorem check_error_format_counterexample :
    (gl.check_error "stmt" "gl.h" 7
        { sampleState with errorFlag := GL_INVALID_ENUM }).2 ≠
      ["Invalid enum in gl.h:7", "--- Expression: stmt"] ∧
    (gl.check_error "stmt" "gl.h" 7
        { sampleState with errorFlag := GL_INVALID_ENUM }).2 =
      ["OpenGL Error: Invalid enum in gl.h:7", "    --- Expression: stmt"] := by
  constructor <;> decide

/-- C7 amended: gl::check_error drains the driver error flag; when the
drained code is GL_NO_ERROR it produces no output; for every other code it
logs exactly two lines, the first being the fixed category (unknown codes
map to the undefined category) with file and line in the format
"OpenGL Error: category in file:line", the second being
"    --- Expression: expr"; it always returns normally (it is a total
function of the state).  The known codes map to the fixed human-readable
categories of the source. -/
theorem check_error_spec (expr file : String) (line : Int) (s : GLState) :
    (gl.check_error expr file line s).1 = { s with errorFlag := GL_NO_ERROR } ∧
    (gl.check_error expr file line s).2 =
      (if s.errorFlag = GL_NO_ERROR then ([] : List String)
       else
         ["OpenGL Error: " ++ error_category s.errorFlag ++ " in " ++ file ++ ":"
            ++ toString line,
          "    --- Expression: " ++ expr]) ∧
    (s.errorFlag ∈ knownErrorCodes ∨ error_category s.errorFlag = "Undefined error") ∧
    error_category GL_INVALID_ENUM = "Invalid enum" ∧
    error_category GL_INVALID_VALUE = "Invalid value" ∧
    error_category GL_INVALID_OPERATION = "Invalid operation" ∧
    error_category GL_INVALID_FRAMEBUFFER_OPERATION = "Invalid framebuffer operation" ∧
    error_category GL_OUT_OF_MEMORY = "Out of memory" ∧
    error_category GL_STACK_UNDERFLOW = "Stack underflow" ∧
    error_category GL_STACK_OVERFLOW = "Stack overflow" := by
  refine ⟨?_, ?_, ?_, by decide, by decide, by decide, by decide, by decide, by decide, by decide⟩
  · by_cases h : s.errorFlag = GL_NO_ERROR <;> simp [gl.check_error, h]
  · by_cases h : s.errorFlag = GL_NO_ERROR <;> simp [gl.check_error, h]
  · by_cases h1 : s.errorFlag = GL_INVALID_ENUM
    · exact Or.inl (by simp [knownErrorCodes, h1])
    · by_cases h2 : s.errorFlag = GL_INVALID_VALUE
      · exact Or.inl (by simp [knownErrorCodes, h2])
      · by_cases h3 : s.errorFlag = GL_INVALID_OPERATION
        · exact Or.inl (by simp [knownErrorCodes, h3])
        · by_cases h4 : s.errorFlag = GL_INVALID_FRAMEBUFFER_OPERATION
          · exact Or.inl (by simp [knownErrorCodes, h4])
          · by_cases h5 : s.errorFlag = GL_OUT_OF_MEMORY
            · exact Or.inl (by simp [knownErrorCodes, h5])
            · by_cases h6 : s.errorFlag = GL_STACK_UNDERFLOW
              · exact Or.inl (by simp [knownErrorCodes, h6])
              · by_cases h7 : s.errorFlag = GL_STACK_OVERFLOW
                · exact Or.inl (by simp [knownErrorCodes, h7])
                · exact Or.inr (by simp [error_category, h1, h2, h3, h4, h5, h6, h7])

theorem getD_set_eq {α : Type} (l : List α) (i : Nat) (a d : α) (h : i < l.length) :
    (l.set i a).getD i d = a := by
  induction l generalizing i with
  | nil => simp at h
  | cons x xs ih =>
      cases i with
      | zero => simp
      | succ n =>
          simp only [List.set, List.getD_cons_succ]
          exact ih n (by simpa using h)

theorem getD_set_lt {α : Type} (l : List α) (i j : Nat) (a d : α) (h : j < i) :
    (l.set i a).getD j d = l.getD j d := by
  induction l generalizing i j with
  | nil => simp
  | cons x xs ih =>
      cases i with
      | zero => omega
      | succ n =>
          cases j with
          | zero => simp
          | succ m =>
              simp only [List.set, List.getD_cons_succ]
              exact ih n m (by omega)

theorem resolve_slots_length (lookup : String → Option Nat) (kindMsg file : String)
    (line : Int) (names : List String) (i : Nat) (slots : List Int) :
    (resolve_slots lookup kindMsg file line names i slots).1.length = slots.length := by
  induction names generalizing i slots with
  | nil => simp [resolve_slots]
  | cons n rest ih => simp [resolve_slots, ih]

theorem resolve_slots_lt (lookup : String → Option Nat) (kindMsg file : String)
    (line : Int) (names : List String) (i j : Nat) (slots : List Int) (h : j < i) :
    (resolve_slots lookup kindMsg file line names i slots).1.getD j 0 =
      slots.getD j 0 := by
  induction names generalizing i slots with
  | nil => simp [resolve_slots]
  | cons n rest ih =>
      simp only [resolve_slots]
      rw [ih (i + 1) _ (by omega), getD_set_lt _ _ _ _ _ h]

theorem resolve_slots_getD (lookup : String → Option Nat) (kindMsg file : String)
    (line : Int) (names : List String) (i j : Nat) (slots : List Int)
    (hj : j < names.length) (hfit : i + names.length ≤ slots.length) :
    (resolve_slots lookup kindMsg file line names i slots).1.getD (i + j) 0 =
      locOf (lookup (names.getD j "")) := by
  induction names generalizing i j slots with
  | nil => simp at hj
  | cons n rest ih =>
      cases j with
      | zero =>
          simp only [resolve_slots, Nat.add_zero, List.getD_cons_zero]
          rw [resolve_slots_lt _ _ _ _ _ _ _ _ (by omega)]
          exact getD_set_eq _ _ _ _ (by simp at hfit; omega)
      | succ m =>
          simp only [resolve_slots, List.getD_cons_succ]
          have : i + (m + 1) = (i + 1) + m := by omega
          rw [this]
          exact ih (i + 1) m _ (by simpa using hj) (by simp at hfit ⊢; omega)

theorem resolve_slots_log (lookup : String → Option Nat) (kindMsg file : String)
    (line : Int) (names : List String) (i : Nat) (slots : List Int) :
    (resolve_slots lookup kindMsg file line names i slots).2 =
      (names.filter (fun n => (lookup n).isNone)).map
        (fun n => kindMsg ++ " " ++ n ++ " not found in shader at " ++ file ++ ":"
            ++ toString line) := by
  induction names generalizing i slots with
  | nil => simp [resolve_slots]
  | cons n rest ih =>
      simp only [resolve_slots]
      cases hl : lookup n with
      | none => simp [locOf, List.filter, hl, ih]
      | some l =>
          have : locOf (some l) ≠ -1 := by simp [locOf]
          simp [List.filter, hl, this, ih]

theorem neg_one_le_locOf (r : Option Nat) : -1 ≤ locOf r := by
  cases r <;> simp [locOf] <;> omega

/-- C6: gl::compile_shader with N attribute names and M uniform names
(N, M within the 8-slot tables) yields attrib_count = N and
uniform_count = M; its first N attribute slots are exactly the
driver-resolved locations of the names in order (likewise the first M
uniform slots); every stored slot is a non-negative location or the -1
sentinel; and a name the driver fails to resolve is logged without aborting
compilation (all slots are still stored and the shader is returned). -/
theorem compile_shader_slot_resolution (shader : Shader) (drv : Driver)
    (file : String) (line : Int) (vert frag : String)
    (anames unames : List String)
    (ha8 : shader.attribs.length = 8) (hu8 : shader.uniforms.length = 8)
    (hN : anames.length ≤ 8) (hM : unames.length ≤ 8) :
    (gl.compile_shader shader drv file line vert frag anames unames).1.attrib_count =
      Int.ofNat anames.length ∧
    (gl.compile_shader shader drv file line vert frag anames unames).1.uniform_count =
      Int.ofNat unames.length ∧
    (∀ i, i < anames.length →
       (gl.compile_shader shader drv file line vert frag anames unames).1.attribs.getD i 0 =
         locOf (drv.attribLoc (anames.getD i "")) ∧
       -1 ≤ (gl.compile_shader shader drv file line vert frag anames unames).1.attribs.getD i 0) ∧
    (∀ i, i < unames.length →
       (gl.compile_shader shader drv file line vert frag anames unames).1.uniforms.getD i 0 =
         locOf (drv.uniformLoc (unames.getD i "")) ∧
       -1 ≤ (gl.compile_shader shader drv file line vert frag anames unames).1.uniforms.getD i 0) ∧
    (∀ name ∈ anames, drv.attribLoc name = none →
       ("Attribute " ++ name ++ " not found in shader at " ++ file ++ ":" ++ toString line)
         ∈ (gl.compile_shader shader drv file line vert frag anames unames).2) ∧
    (∀ name ∈ unames, drv.uniformLoc name = none →
       ("Uniform " ++ name ++ " not found in shader at " ++ file ++ ":" ++ toString line)
         ∈ (gl.compile_shader shader drv file line vert frag anames unames).2) := by
  refine ⟨rfl, rfl, ?_, ?_, ?_, ?_⟩
  · intro i hi
    have h := resolve_slots_getD drv.attribLoc "Attribute" file line anames 0 i
      shader.attribs hi (by omega)
    simp only [Nat.zero_add] at h
    have h2 : (gl.compile_shader shader drv file line vert frag anames unames).1.attribs.getD i 0 =
        locOf (drv.attribLoc (anames.getD i "")) := h
    exact ⟨h2, by rw [h2]; exact neg_one_le_locOf _⟩
  · intro i hi
    have h := resolve_slots_getD drv.uniformLoc "Uniform" file line unames 0 i
      shader.uniforms hi (by omega)
    simp only [Nat.zero_add] at h
    have h2 : (gl.compile_shader shader drv file line vert frag anames unames).1.uniforms.getD i 0 =
        locOf (drv.uniformLoc (unames.getD i "")) := h
    exact ⟨h2, by rw [h2]; exact neg_one_le_locOf _⟩
  · intro name hmem hnone
    simp only [gl.compile_shader, List.mem_append]
    refine Or.inl (Or.inr ?_)
    rw [resolve_slots_log]
    exact List.mem_map_of_mem _ (List.mem_filter.mpr ⟨hmem, by simp [hnone]⟩)
  · intro name hmem hnone
    simp only [gl.compile_shader, List.mem_append]
    refine Or.inr ?_
    rw [resolve_slots_log]
    exact List.mem_map_of_mem _ (List.mem_filter.mpr ⟨hmem, by simp [hnone]⟩)

/-- C6 witness: the theorem instantiated at a concrete driver that resolves
two of three attribute names and the single uniform name. -/
theorem compile_shader_slot_resolution_witness :
    sampleShader0.attribs.length = 8 ∧ sampleShader0.uniforms.length = 8 ∧
    (["Position", "UV", "Color"] : List String).length ≤ 8 ∧
    (["ProjMtx"] : List String).length ≤ 8 ∧
    ((gl.compile_shader sampleShader0 sampleDriver "f" 1 "v" "g"
        ["Position", "UV", "Color"] ["ProjMtx"]).1.attrib_count = Int.ofNat 3 ∧
     (gl.compile_shader sampleShader0 sampleDriver "f" 1 "v" "g"
        ["Position", "UV", "Color"] ["ProjMtx"]).1.uniform_count = Int.ofNat 1 ∧
     (∀ i, i < (["Position", "UV", "Color"] : List String).length →
        (gl.compile_shader sampleShader0 sampleDriver "f" 1 "v" "g"
           ["Position", "UV", "Color"] ["ProjMtx"]).1.attribs.getD i 0 =
          locOf (sampleDriver.attribLoc ((["Position", "UV", "Color"] : List String).getD i "")) ∧
        -1 ≤ (gl.compile_shader sampleShader0 sampleDriver "f" 1 "v" "g"
           ["Position", "UV", "Color"] ["ProjMtx"]).1.attribs.getD i 0) ∧
     (∀ i, i < (["ProjMtx"] : List String).length →
        (gl.compile_shader sampleShader0 sampleDriver "f" 1 "v" "g"
           ["Position", "UV", "Color"] ["ProjMtx"]).1.uniforms.getD i 0 =
          locOf (sampleDriver.uniformLoc ((["ProjMtx"] : List String).getD i "")) ∧
        -1 ≤ (gl.compile_shader sampleShader0 sampleDriver "f" 1 "v" "g"
           ["Position", "UV", "Color"] ["ProjMtx"]).1.uniforms.getD i 0) ∧
     (∀ name ∈ (["Position", "UV", "Color"] : List String), sampleDriver.attribLoc name = none →
        ("Attribute " ++ name ++ " not found in shader at " ++ "f" ++ ":" ++ toString (1 : Int))
          ∈ (gl.compile_shader sampleShader0 sampleDriver "f" 1 "v" "g"
              ["Position", "UV", "Color"] ["ProjMtx"]).2) ∧
     (∀ name ∈ (["ProjMtx"] : List String), sampleDriver.uniformLoc name = none →
        ("Uniform " ++ name ++ " not found in shader at " ++ "f" ++ ":" ++ toString (1 : Int))
          ∈ (gl.compile_shader sampleShader0 sampleDriver "f" 1 "v" "g"
              ["Position", "UV", "Color"] ["ProjMtx"]).2)) :=
  ⟨by decide, by decide, by decide, by decide,
   compile_shader_slot_resolution sampleShader0 sampleDriver "f" 1 "v" "g"
     ["Position", "UV", "Color"] ["ProjMtx"] (by decide) (by decide) (by decide) (by decide)⟩

/-- C2: gl::transform_quad overwrites the six-vertex buffer with exactly the
six computed vertices; their bounding box is the given rectangle (every
coordinate within bounds and every bound attained), every vertex carries
full-opacity white packed color, each UV is the unit-square corner matching
the position corner (all four corners being attained), and the two triangles
are counter-clockwise and together cover the rectangle. -/
theorem transform_quad_geometry (s : GLState) (mesh : Mesh) (pos size : Vec2)
    (data : List ImDrawVert) (hw : 0 < size.x) (hh : 0 < size.y)
    (hb : mesh.vbo_handle ≠ 0) (hget : getA mesh.vbo_handle s.buffers = some data)
    (hlen : data.length = 6) :
    getA mesh.vbo_handle (gl.transform_quad s mesh pos size).2.1.buffers =
      some (gl.quad_verts pos size) ∧
    (gl.quad_verts pos size).length = 6 ∧
    (∀ v ∈ gl.quad_verts pos size, v.col = 0xffffffff) ∧
    (∀ v ∈ gl.quad_verts pos size,
       pos.x ≤ v.pos.x ∧ v.pos.x ≤ pos.x + size.x ∧
       pos.y ≤ v.pos.y ∧ v.pos.y ≤ pos.y + size.y) ∧
    (∃ v ∈ gl.quad_verts pos size, v.pos.x = pos.x) ∧
    (∃ v ∈ gl.quad_verts pos size, v.pos.x = pos.x + size.x) ∧
    (∃ v ∈ gl.quad_verts pos size, v.pos.y = pos.y) ∧
    (∃ v ∈ gl.quad_verts pos size, v.pos.y = pos.y + size.y) ∧
    (∀ v ∈ gl.quad_verts pos size,
       ((v.pos.x = pos.x ∧ v.uv.x = 0) ∨ (v.pos.x = pos.x + size.x ∧ v.uv.x = 1)) ∧
       ((v.pos.y = pos.y ∧ v.uv.y = 0) ∨ (v.pos.y = pos.y + size.y ∧ v.uv.y = 1))) ∧
    (∀ corner ∈ ([(0, 0), (0, 1), (1, 0), (1, 1)] : List (Rat × Rat)),
       ∃ v ∈ gl.quad_verts pos size,
         v.uv.x = corner.1 ∧ v.uv.y = corner.2 ∧
         v.pos.x = pos.x + corner.1 * size.x ∧ v.pos.y = pos.y + corner.2 * size.y) ∧
    0 < cross2 ((gl.quad_verts pos size).getD 0 undefVert).pos
        ((gl.quad_verts pos size).getD 1 undefVert).pos
        ((gl.quad_verts pos size).getD 2 undefVert).pos ∧
    0 < cross2 ((gl.quad_verts pos size).getD 3 undefVert).pos
        ((gl.quad_verts pos size).getD 4 undefVert).pos
        ((gl.quad_verts pos size).getD 5 undefVert).pos ∧
    (∀ p : Vec2, pos.x ≤ p.x → p.x ≤ pos.x + size.x → pos.y ≤ p.y →
       p.y ≤ pos.y + size.y →
       inTri ((gl.quad_verts pos size).getD 0 undefVert).pos
         ((gl.quad_verts pos size).getD 1 undefVert).pos
         ((gl.quad_verts pos size).getD 2 undefVert).pos p ∨
       inTri ((gl.quad_verts pos size).getD 3 undefVert).pos
         ((gl.quad_verts pos size).getD 4 undefVert).pos
         ((gl.quad_verts pos size).getD 5 undefVert).pos p) := by
  have hqlen : (gl.quad_verts pos size).length = 6 := rfl
  have hm0 : mkVert pos.x (pos.y + size.y) 0 1 ∈ gl.quad_verts pos size := by
    simp [gl.quad_verts, mkVert]
  have hm1 : mkVert pos.x pos.y 0 0 ∈ gl.quad_verts pos size := by
    simp [gl.quad_verts, mkVert]
  have hm2 : mkVert (pos.x + size.x) (pos.y + size.y) 1 1 ∈ gl.quad_verts pos size := by
    simp [gl.quad_verts, mkVert]
  have hm3 : mkVert (pos.x + size.x) pos.y 1 0 ∈ gl.quad_verts pos size := by
    simp [gl.quad_verts, mkVert]
  refine ⟨?_, rfl, ?_, ?_, ?_, ?_, ?_, ?_, ?_, ?_, ?_, ?_, ?_⟩
  · have hdrop : data.drop 6 = [] := by
      rw [← hlen]; exact List.drop_length data
    simp [gl.transform_quad, exec_cons, exec_nil, exec1, drainError, hb, hget,
          hqlen, hlen, hdrop, getA_setA_eq]
  · simp only [gl.quad_verts, List.mem_cons, List.not_mem_nil, or_false]
    rintro v (rfl | rfl | rfl | rfl | rfl | rfl) <;> rfl
  · simp only [gl.quad_verts, List.mem_cons, List.not_mem_nil, or_false]
    rintro v (rfl | rfl | rfl | rfl | rfl | rfl) <;> dsimp only <;>
      refine ⟨?_, ?_, ?_, ?_⟩ <;> linarith
  · exact ⟨_, hm0, rfl⟩
  · exact ⟨_, hm2, rfl⟩
  · exact ⟨_, hm1, rfl⟩
  · exact ⟨_, hm0, rfl⟩
  · simp only [gl.quad_verts, List.mem_cons, List.not_mem_nil, or_false]
    rintro v (rfl | rfl | rfl | rfl | rfl | rfl) <;> dsimp only <;>
      constructor <;> first
        | exact Or.inl ⟨rfl, rfl⟩
        | exact Or.inr ⟨rfl, rfl⟩
  · intro corner hc
    simp only [List.mem_cons, List.not_mem_nil, or_false] at hc
    rcases hc with rfl | rfl | rfl | rfl
    · exact ⟨_, hm1, rfl, rfl, by dsimp only [mkVert]; ring, by dsimp only [mkVert]; ring⟩
    · exact ⟨_, hm0, rfl, rfl, by dsimp only [mkVert]; ring, by dsimp only [mkVert]; ring⟩
    · exact ⟨_, hm3, rfl, rfl, by dsimp only [mkVert]; ring, by dsimp only [mkVert]; ring⟩
    · exact ⟨_, hm2, rfl, rfl, by dsimp only [mkVert]; ring, by dsimp only [mkVert]; ring⟩
  · simp only [gl.quad_verts, List.getD_cons_zero, List.getD_cons_succ, cross2]
    nlinarith [mul_pos hw hh]
  · simp only [gl.quad_verts, List.getD_cons_zero, List.getD_cons_succ, cross2]
    nlinarith [mul_pos hw hh]
  · intro p hx1 hx2 hy1 hy2
    simp only [gl.quad_verts, List.getD_cons_zero, List.getD_cons_succ, inTri, cross2]
    by_cases hd : 0 ≤ size.x * (p.y - pos.y) - size.y * (p.x - pos.x)
    · refine Or.inl ⟨?_, ?_, ?_⟩
      · nlinarith [mul_nonneg hh.le (sub_nonneg.mpr hx1)]
      · nlinarith [hd]
      · nlinarith [mul_nonneg hw.le (sub_nonneg.mpr hy2)]
    · push_neg at hd
      refine Or.inr ⟨?_, ?_, ?_⟩
      · nlinarith [mul_nonneg hh.le (sub_nonneg.mpr hx2)]
      · nlinarith [hd]
      · nlinarith [mul_nonneg hw.le (sub_nonneg.mpr hy1)]

/-- C2 witness: the geometry theorem instantiated at a concrete state, mesh
and rectangle, with every hypothesis discharged by evaluation. -/
theorem transform_quad_geometry_witness :
    0 < wSize.x ∧ 0 < wSize.y ∧ sampleMesh.vbo_handle ≠ 0 ∧
    getA sampleMesh.vbo_handle sampleState.buffers = some (List.replicate 6 undefVert) ∧
    (List.replicate 6 undefVert).length = 6 ∧
    (getA sampleMesh.vbo_handle (gl.transform_quad sampleState sampleMesh wPos wSize).2.1.buffers =
       some (gl.quad_verts wPos wSize) ∧
     (gl.quad_verts wPos wSize).length = 6 ∧
     (∀ v ∈ gl.quad_verts wPos wSize, v.col = 0xffffffff) ∧
     (∀ v ∈ gl.quad_verts wPos wSize,
        wPos.x ≤ v.pos.x ∧ v.pos.x ≤ wPos.x + wSize.x ∧
        wPos.y ≤ v.pos.y ∧ v.pos.y ≤ wPos.y + wSize.y) ∧
     (∃ v ∈ gl.quad_verts wPos wSize, v.pos.x = wPos.x) ∧
     (∃ v ∈ gl.quad_verts wPos wSize, v.pos.x = wPos.x + wSize.x) ∧
     (∃ v ∈ gl.quad_verts wPos wSize, v.pos.y = wPos.y) ∧
     (∃ v ∈ gl.quad_verts wPos wSize, v.pos.y = wPos.y + wSize.y) ∧
     (∀ v ∈ gl.quad_verts wPos wSize,
        ((v.pos.x = wPos.x ∧ v.uv.x = 0) ∨ (v.pos.x = wPos.x + wSize.x ∧ v.uv.x = 1)) ∧
        ((v.pos.y = wPos.y ∧ v.uv.y = 0) ∨ (v.pos.y = wPos.y + wSize.y ∧ v.uv.y = 1))) ∧
     (∀ corner ∈ ([(0, 0), (0, 1), (1, 0), (1, 1)] : List (Rat × Rat)),
        ∃ v ∈ gl.quad_verts wPos wSize,
          v.uv.x = corner.1 ∧ v.uv.y = corner.2 ∧
          v.pos.x = wPos.x + corner.1 * wSize.x ∧ v.pos.y = wPos.y + corner.2 * wSize.y) ∧
     0 < cross2 ((gl.quad_verts wPos wSize).getD 0 undefVert).pos
         ((gl.quad_verts wPos wSize).getD 1 undefVert).pos
         ((gl.quad_verts wPos wSize).getD 2 undefVert).pos ∧
     0 < cross2 ((gl.quad_verts wPos wSize).getD 3 undefVert).pos
         ((gl.quad_verts wPos wSize).getD 4 undefVert).pos
         ((gl.quad_verts wPos wSize).getD 5 undefVert).pos ∧
     (∀ p : Vec2, wPos.x ≤ p.x → p.x ≤ wPos.x + wSize.x → wPos.y ≤ p.y →
        p.y ≤ wPos.y + wSize.y →
        inTri ((gl.quad_verts wPos wSize).getD 0 undefVert).pos
          ((gl.quad_verts wPos wSize).getD 1 undefVert).pos
          ((gl.quad_verts wPos wSize).getD 2 undefVert).pos p ∨
        inTri ((gl.quad_verts wPos wSize).getD 3 undefVert).pos
          ((gl.quad_verts wPos wSize).getD 4 undefVert).pos
          ((gl.quad_verts wPos wSize).getD 5 undefVert).pos p)) :=
  ⟨by decide, by decide, by decide, by decide, by decide,
   transform_quad_geometry sampleState sampleMesh wPos wSize
     (List.replicate 6 undefVert) (by decide) (by decide) (by decide) (by decide) (by decide)⟩

/-- C3 counterexample: with the first uniform slot holding the -1 sentinel,
gl::draw_mesh still issues the upload call, with location -1, for the first
argument; the upload call is not skipped as the claim states. -/
theorem draw_uniform_sentinel_call_issued :
    GLCall.uniform1f (-1) 5 ∈
      (gl.draw_mesh sampleState sampleMesh sentinelShader false [UniformArg.float 5]).2 := by
  decide

theorem draw_uniform_calls_length (shader : Shader) (args : List UniformArg) (i : Nat) :
    (gl.draw_uniform_calls shader args i).length = args.length := by
  induction args generalizing i with
  | nil => rfl
  | cons a rest ih => cases a <;> simp [gl.draw_uniform_calls, ih]

theorem draw_uniform_calls_getD (shader : Shader) (args : List UniformArg)
    (i j : Nat) (hj : j < args.length) :
    (gl.draw_uniform_calls shader args i).getD j (GLCall.getIntegerv 0) =
      uniformCallOf (shader.uniforms.getD (i + j) 0) (args.getD j (UniformArg.float 0)) := by
  induction args generalizing i j with
  | nil => simp at hj
  | cons a rest ih =>
      cases j with
      | zero =>
          cases a <;> simp [gl.draw_uniform_calls, uniformCallOf]
      | succ m =>
          have hij : i + (m + 1) = (i + 1) + m := by omega
          cases a <;>
            simp only [gl.draw_uniform_calls, List.getD_cons_succ, hij] <;>
            exact ih (i + 1) m (by simpa using hj)

/-- C3 amended: the uniform argument list is walked in order and matched to
the uniform slot table by position (the i-th issued call uploads to the
location stored in slot i); for a slot holding the -1 sentinel the upload
call is still issued with location -1, which the driver silently ignores
(no uniform variable changes, and with a program bound the context state is
entirely unchanged); the argument is still consumed (one call per argument),
so subsequent arguments remain aligned with their slots. -/
theorem draw_uniform_positional_alignment (shader : Shader) (args : List UniformArg)
    (i : Nat) (hi : i < args.length) :
    (gl.draw_uniform_calls shader args 0).length = args.length ∧
    (gl.draw_uniform_calls shader args 0).getD i (GLCall.getIntegerv 0) =
      uniformCallOf (shader.uniforms.getD i 0) (args.getD i (UniformArg.float 0)) ∧
    (∀ t : GLState, ∀ a : UniformArg, t.currentProgram ≠ 0 →
       exec1 t (uniformCallOf (-1) a) = t) ∧
    (∀ t : GLState, ∀ a : UniformArg,
       (exec1 t (uniformCallOf (-1) a)).uniformVals = t.uniformVals) ∧
    (∀ s : GLState, ∀ mesh : Mesh, ∀ scissor : Bool,
       List.IsInfix (gl.draw_uniform_calls shader args 0)
         (gl.draw_mesh s mesh shader scissor args).2) := by
  refine ⟨draw_uniform_calls_length shader args 0, ?_, ?_, ?_, ?_⟩
  · have h := draw_uniform_calls_getD shader args 0 i hi
    simpa using h
  · intro t a ht
    cases a <;> simp [uniformCallOf, exec1, glUniformSet, ht]
  · intro t a
    cases a <;> by_cases ht : t.currentProgram = 0 <;>
      simp [uniformCallOf, exec1, glUniformSet, ht, recordError] <;>
      split <;> rfl
  · intro s mesh scissor
    refine ⟨gl.draw_setup_calls mesh shader scissor,
            gl.set_vertex_attribs shader ++
              gl.draw_finish_calls mesh s.currentProgram s.textureBinding2D, ?_⟩
    simp [gl.draw_mesh, List.append_assoc]

/-- C3 witness: the amended theorem instantiated at a concrete shader whose
first uniform slot is the sentinel and a one-element argument list. -/
theorem draw_uniform_positional_alignment_witness :
    (0 : Nat) < ([UniformArg.float 5] : List UniformArg).length ∧
    ((gl.draw_uniform_calls sentinelShader [UniformArg.float 5] 0).length =
       ([UniformArg.float 5] : List UniformArg).length ∧
     (gl.draw_uniform_calls sentinelShader [UniformArg.float 5] 0).getD 0
         (GLCall.getIntegerv 0) =
       uniformCallOf (sentinelShader.uniforms.getD 0 0)
         (([UniformArg.float 5] : List UniformArg).getD 0 (UniformArg.float 0)) ∧
     (∀ t : GLState, ∀ a : UniformArg, t.currentProgram ≠ 0 →
        exec1 t (uniformCallOf (-1) a) = t) ∧
     (∀ t : GLState, ∀ a : UniformArg,
        (exec1 t (uniformCallOf (-1) a)).uniformVals = t.uniformVals) ∧
     (∀ s : GLState, ∀ mesh : Mesh, ∀ scissor : Bool,
        List.IsInfix (gl.draw_uniform_calls sentinelShader [UniformArg.float 5] 0)
          (gl.draw_mesh s mesh sentinelShader scissor [UniformArg.float 5]).2)) :=
  ⟨by decide,
   draw_uniform_positional_alignment sentinelShader [UniformArg.float 5] 0 (by decide)⟩

theorem intToUInt32_of_nonneg (a : Int) (h0 : 0 ≤ a) (hlt : a < 4294967296) :
    intToUInt32 a = a.toNat := by
  unfold intToUInt32
  rw [Int.emod_eq_of_lt h0 hlt]

theorem mem_insertIfAbsent (u v : Nat) (l : List Nat) :
    v ∈ insertIfAbsent u l ↔ v = u ∨ v ∈ l := by
  by_cases h : u ∈ l
  · simp only [insertIfAbsent, if_pos h]
    exact ⟨Or.inr, fun hv => hv.elim (fun e => e ▸ h) id⟩
  · simp [insertIfAbsent, if_neg h]

theorem getA_none_of_keys_lt {α : Type} (k m : Nat) (l : List (Nat × α))
    (hl : ∀ kv ∈ l, kv.1 < m) (hk : m ≤ k) : getA k l = none := by
  induction l with
  | nil => rfl
  | cons kv rest ih =>
      have h1 := hl kv (List.mem_cons_self kv rest)
      have hne : kv.1 ≠ k := by omega
      simp only [getA, if_neg hne]
      exact ih fun x hx => hl x (List.mem_cons_of_mem kv hx)

/-- C4 counterexample: with the third attribute slot holding the -1
sentinel, the attribute-binding stage of drawing does issue both the enable
call and the configure call for that slot (with the sentinel index),
contradicting the claim that no enable/configure call is issued for it. -/
theorem set_vertex_attribs_sentinel_call_issued :
    GLCall.enableVertexAttribArray (-1) ∈ gl.set_vertex_attribs colorSentinelShader ∧
    GLCall.vertexAttribPointer (-1) 4 GL_UNSIGNED_BYTE true sizeof_ImDrawVert offsetof_col
      ∈ gl.set_vertex_attribs colorSentinelShader := by
  constructor <;> decide

/-- C4 amended: for a shader declaring three attributes whose third slot
holds the -1 sentinel (the specification scenario), the attribute-binding
stage of drawing does issue the enable/configure calls for that slot, with
the sentinel index cast to an out-of-range GLuint; the driver rejects them
with GL_INVALID_VALUE and leaves attribute state unchanged, so the sentinel
is tolerated without a crash and the color stream is effectively skipped
(never enabled, never configured), while the two non-sentinel streams are
enabled and configured at the fixed vertex layout. -/
theorem set_vertex_attribs_sentinel_tolerated (s : GLState) (shader : Shader)
    (hc : shader.attrib_count = 3)
    (h2 : shader.attribs.getD 2 0 = -1)
    (h0 : 0 ≤ shader.attribs.getD 0 0)
    (h0m : (shader.attribs.getD 0 0).toNat < s.maxVertexAttribs)
    (h1 : 0 ≤ shader.attribs.getD 1 0)
    (h1m : (shader.attribs.getD 1 0).toNat < s.maxVertexAttribs)
    (hne : shader.attribs.getD 0 0 ≠ shader.attribs.getD 1 0)
    (hmax : s.maxVertexAttribs ≤ 4294967295)
    (hwfE : ∀ u ∈ s.enabledAttribs, u < s.maxVertexAttribs)
    (hwfC : ∀ kv ∈ s.attribConfigs, kv.1 < s.maxVertexAttribs) :
    GLCall.enableVertexAttribArray (-1) ∈ gl.set_vertex_attribs shader ∧
    intToUInt32 (-1) ∉ (exec s (gl.set_vertex_attribs shader)).enabledAttribs ∧
    getA (intToUInt32 (-1)) (exec s (gl.set_vertex_attribs shader)).attribConfigs = none ∧
    (shader.attribs.getD 0 0).toNat ∈ (exec s (gl.set_vertex_attribs shader)).enabledAttribs ∧
    (shader.attribs.getD 1 0).toNat ∈ (exec s (gl.set_vertex_attribs shader)).enabledAttribs ∧
    getA (shader.attribs.getD 0 0).toNat (exec s (gl.set_vertex_attribs shader)).attribConfigs =
      some ⟨2, GL_FLOAT, false, sizeof_ImDrawVert, offsetof_pos, s.arrayBufferBinding⟩ ∧
    getA (shader.attribs.getD 1 0).toNat (exec s (gl.set_vertex_attribs shader)).attribConfigs =
      some ⟨2, GL_FLOAT, false, sizeof_ImDrawVert, offsetof_uv, s.arrayBufferBinding⟩ := by
  have hu0 : intToUInt32 (shader.attribs.getD 0 0) = (shader.attribs.getD 0 0).toNat :=
    intToUInt32_of_nonneg _ h0 (by omega)
  have hu1 : intToUInt32 (shader.attribs.getD 1 0) = (shader.attribs.getD 1 0).toNat :=
    intToUInt32_of_nonneg _ h1 (by omega)
  have husent : intToUInt32 (-1) = 4294967295 := by decide
  have hnosent : ¬ (4294967295 < s.maxVertexAttribs) := by omega
  have hne2 : (shader.attribs.getD 1 0).toNat ≠ (shader.attribs.getD 0 0).toNat := by omega
  have hcalls : gl.set_vertex_attribs shader =
      [GLCall.enableVertexAttribArray (shader.attribs.getD 0 0),
       GLCall.enableVertexAttribArray (shader.attribs.getD 1 0),
       GLCall.enableVertexAttribArray (-1),
       GLCall.vertexAttribPointer (shader.attribs.getD 0 0) 2 GL_FLOAT false 20 0,
       GLCall.vertexAttribPointer (shader.attribs.getD 1 0) 2 GL_FLOAT false 20 8,
       GLCall.vertexAttribPointer (-1) 4 GL_UNSIGNED_BYTE true 20 16] := by
    unfold gl.set_vertex_attribs
    rw [hc]
    have hr : List.range (Int.toNat 3) = [0, 1, 2] := rfl
    rw [hr, if_pos (by decide : (2 : Int) < 3)]
    simp only [List.map_cons, List.map_nil, List.cons_append, List.nil_append]
    rw [h2]
  have hstate : exec s (gl.set_vertex_attribs shader) =
      { s with errorFlag := GL_NO_ERROR,
               enabledAttribs := insertIfAbsent (shader.attribs.getD 1 0).toNat
                 (insertIfAbsent (shader.attribs.getD 0 0).toNat s.enabledAttribs),
               attribConfigs := setA (shader.attribs.getD 1 0).toNat
                 ⟨2, GL_FLOAT, false, 20, 8, s.arrayBufferBinding⟩
                 (setA (shader.attribs.getD 0 0).toNat
                   ⟨2, GL_FLOAT, false, 20, 0, s.arrayBufferBinding⟩ s.attribConfigs) } := by
    have egd0 : shader.attribs[0]?.getD 0 = shader.attribs.getD 0 0 :=
      (List.getD_eq_getElem?_getD _ _ _).symm
    have egd1 : shader.attribs[1]?.getD 0 = shader.attribs.getD 1 0 :=
      (List.getD_eq_getElem?_getD _ _ _).symm
    have hu0e : intToUInt32 (shader.attribs[0]?.getD 0) = (shader.attribs[0]?.getD 0).toNat := by
      rw [egd0]; exact hu0
    have hu1e : intToUInt32 (shader.attribs[1]?.getD 0) = (shader.attribs[1]?.getD 0).toNat := by
      rw [egd1]; exact hu1
    have h0me : (shader.attribs[0]?.getD 0).toNat < s.maxVertexAttribs := by
      rw [egd0]; exact h0m
    have h1me : (shader.attribs[1]?.getD 0).toNat < s.maxVertexAttribs := by
      rw [egd1]; exact h1m
    rw [hcalls]
    simp [exec_cons, exec_nil, exec1, drainError, recordError, hu0e, hu1e, husent, h0me,
          h1me, hnosent]
  refine ⟨by rw [hcalls]; simp, ?_, ?_, ?_, ?_, ?_, ?_⟩
  · rw [hstate, husent]
    intro hmem
    rcases (mem_insertIfAbsent _ _ _).mp hmem with h | hmem2
    · omega
    · rcases (mem_insertIfAbsent _ _ _).mp hmem2 with h | hmem3
      · omega
      · exact absurd (hwfE _ hmem3) (by omega)
  · rw [hstate, husent]
    rw [getA_setA_ne _ _ _ _ (by omega), getA_setA_ne _ _ _ _ (by omega)]
    exact getA_none_of_keys_lt _ s.maxVertexAttribs _ hwfC hmax
  · rw [hstate]
    exact (mem_insertIfAbsent _ _ _).mpr (Or.inr ((mem_insertIfAbsent _ _ _).mpr (Or.inl rfl)))
  · rw [hstate]
    exact (mem_insertIfAbsent _ _ _).mpr (Or.inl rfl)
  · rw [hstate]
    rw [getA_setA_ne _ _ _ _ hne2]
    exact getA_setA_eq _ _ _
  · rw [hstate]
    exact getA_setA_eq _ _ _

/-- C4 witness: the amended theorem instantiated at a concrete context and
the concrete scenario shader (attributes position, uv resolved to slots 0
and 1, color resolved to the sentinel). -/
theorem set_vertex_attribs_sentinel_tolerated_witness :
    colorSentinelShader.attrib_count = 3 ∧
    colorSentinelShader.attribs.getD 2 0 = -1 ∧
    0 ≤ colorSentinelShader.attribs.getD 0 0 ∧
    (colorSentinelShader.attribs.getD 0 0).toNat < sampleState.maxVertexAttribs ∧
    0 ≤ colorSentinelShader.attribs.getD 1 0 ∧
    (colorSentinelShader.attribs.getD 1 0).toNat < sampleState.maxVertexAttribs ∧
    colorSentinelShader.attribs.getD 0 0 ≠ colorSentinelShader.attribs.getD 1 0 ∧
    sampleState.maxVertexAttribs ≤ 4294967295 ∧
    (∀ u ∈ sampleState.enabledAttribs, u < sampleState.maxVertexAttribs) ∧
    (∀ kv ∈ sampleState.attribConfigs, kv.1 < sampleState.maxVertexAttribs) ∧
    (GLCall.enableVertexAttribArray (-1) ∈ gl.set_vertex_attribs colorSentinelShader ∧
     intToUInt32 (-1) ∉
       (exec sampleState (gl.set_vertex_attribs colorSentinelShader)).enabledAttribs ∧
     getA (intToUInt32 (-1))
       (exec sampleState (gl.set_vertex_attribs colorSentinelShader)).attribConfigs = none ∧
     (colorSentinelShader.attribs.getD 0 0).toNat ∈
       (exec sampleState (gl.set_vertex_attribs colorSentinelShader)).enabledAttribs ∧
     (colorSentinelShader.attribs.getD 1 0).toNat ∈
       (exec sampleState (gl.set_vertex_attribs colorSentinelShader)).enabledAttribs ∧
     getA (colorSentinelShader.attribs.getD 0 0).toNat
       (exec sampleState (gl.set_vertex_attribs colorSentinelShader)).attribConfigs =
         some ⟨2, GL_FLOAT, false, sizeof_ImDrawVert, offsetof_pos, sampleState.arrayBufferBinding⟩ ∧
     getA (colorSentinelShader.attribs.getD 1 0).toNat
       (exec sampleState (gl.set_vertex_attribs colorSentinelShader)).attribConfigs =
         some ⟨2, GL_FLOAT, false, sizeof_ImDrawVert, offsetof_uv, sampleState.arrayBufferBinding⟩) :=
  ⟨by decide, by decide, by decide, by decide, by decide, by decide, by decide, by decide,
   by decide, by decide,
   set_vertex_attribs_sentinel_tolerated sampleState colorSentinelShader
     (by decide) (by decide) (by decide) (by decide) (by decide) (by decide) (by decide)
     (by decide) (by decide) (by decide)⟩

theorem exec1_validPrograms (s : GLState) (c : GLCall) :
    (exec1 s c).validPrograms = s.validPrograms := by
  cases c <;>
    simp only [exec1, glEnableCap, glDisableCap, glUniformSet, recordError] <;>
    (repeat' split) <;> rfl

theorem exec_validPrograms (s : GLState) (l : List GLCall) :
    (exec s l).validPrograms = s.validPrograms := by
  induction l generalizing s with
  | nil => rfl
  | cons c rest ih =>
      rw [exec_cons, ih]
      simp [drainError, exec1_validPrograms]

theorem exec1_passive (s : GLState) (c : GLCall) (h : isPassive c = true) :
    (exec1 s c).currentProgram = s.currentProgram ∧
    (exec1 s c).textureBinding2D = s.textureBinding2D ∧
    (exec1 s c).arrayBufferBinding = s.arrayBufferBinding ∧
    (exec1 s c).blendEnabled = s.blendEnabled ∧
    (exec1 s c).cullFaceEnabled = s.cullFaceEnabled ∧
    (exec1 s c).depthTestEnabled = s.depthTestEnabled ∧
    (exec1 s c).scissorTestEnabled = s.scissorTestEnabled ∧
    (exec1 s c).blendEquationMode = s.blendEquationMode ∧
    (exec1 s c).blendSrc = s.blendSrc ∧
    (exec1 s c).blendDst = s.blendDst ∧
    (exec1 s c).lineWidth = s.lineWidth := by
  cases c <;> simp [isPassive] at h <;>
    simp only [exec1, glUniformSet, recordError] <;>
    (repeat' split) <;> simp

theorem exec_passive (s : GLState) (l : List GLCall)
    (h : ∀ c ∈ l, isPassive c = true) :
    (exec s l).currentProgram = s.currentProgram ∧
    (exec s l).textureBinding2D = s.textureBinding2D ∧
    (exec s l).arrayBufferBinding = s.arrayBufferBinding ∧
    (exec s l).blendEnabled = s.blendEnabled ∧
    (exec s l).cullFaceEnabled = s.cullFaceEnabled ∧
    (exec s l).depthTestEnabled = s.depthTestEnabled ∧
    (exec s l).scissorTestEnabled = s.scissorTestEnabled ∧
    (exec s l).blendEquationMode = s.blendEquationMode ∧
    (exec s l).blendSrc = s.blendSrc ∧
    (exec s l).blendDst = s.blendDst ∧
    (exec s l).lineWidth = s.lineWidth := by
  induction l generalizing s with
  | nil => exact ⟨rfl, rfl, rfl, rfl, rfl, rfl, rfl, rfl, rfl, rfl, rfl⟩
  | cons c rest ih =>
      have hc := h c (List.mem_cons_self c rest)
      have hrest := fun x hx => h x (List.mem_cons_of_mem c hx)
      rw [exec_cons]
      obtain ⟨a1, a2, a3, a4, a5, a6, a7, a8, a9, a10, a11⟩ := exec1_passive s c hc
      obtain ⟨b1, b2, b3, b4, b5, b6, b7, b8, b9, b10, b11⟩ :=
        ih (drainError (exec1 s c)) hrest
      exact ⟨b1.trans a1, b2.trans a2, b3.trans a3, b4.trans a4, b5.trans a5,
             b6.trans a6, b7.trans a7, b8.trans a8, b9.trans a9, b10.trans a10,
             b11.trans a11⟩

theorem draw_uniform_calls_passive (shader : Shader) (args : List UniformArg) (i : Nat) :
    ∀ c ∈ gl.draw_uniform_calls shader args i, isPassive c = true := by
  induction args generalizing i with
  | nil => intro c hc; simp [gl.draw_uniform_calls] at hc
  | cons a rest ih =>
      intro c hc
      cases a <;> simp only [gl.draw_uniform_calls, List.mem_cons] at hc <;>
        rcases hc with rfl | hc <;> first | rfl | exact ih (i + 1) c hc

theorem set_vertex_attribs_passive (shader : Shader) :
    ∀ c ∈ gl.set_vertex_attribs shader, isPassive c = true := by
  intro c hc
  simp only [gl.set_vertex_attribs, List.mem_append, List.mem_map, List.mem_cons,
             List.not_mem_nil, or_false] at hc
  rcases hc with (⟨i, _, rfl⟩ | hc) | hc
  · rfl
  · rcases hc with rfl | rfl <;> rfl
  · by_cases h2 : 2 < shader.attrib_count
    · rw [if_pos h2] at hc
      simp only [List.mem_cons, List.not_mem_nil, or_false] at hc
      rw [hc]
      rfl
    · rw [if_neg h2] at hc
      simp at hc

theorem exec_finish (t : GLState) (mesh : Mesh) (p tex : Nat)
    (hp : p = 0 ∨ p ∈ t.validPrograms) :
    (exec t (gl.draw_finish_calls mesh p tex)).currentProgram = p ∧
    (exec t (gl.draw_finish_calls mesh p tex)).textureBinding2D = tex ∧
    (exec t (gl.draw_finish_calls mesh p tex)).blendEnabled = false ∧
    (exec t (gl.draw_finish_calls mesh p tex)).scissorTestEnabled = false ∧
    (exec t (gl.draw_finish_calls mesh p tex)).arrayBufferBinding = 0 ∧
    (exec t (gl.draw_finish_calls mesh p tex)).lineWidth = 2 ∧
    (exec t (gl.draw_finish_calls mesh p tex)).cullFaceEnabled = t.cullFaceEnabled ∧
    (exec t (gl.draw_finish_calls mesh p tex)).depthTestEnabled = t.depthTestEnabled ∧
    (exec t (gl.draw_finish_calls mesh p tex)).blendEquationMode = t.blendEquationMode ∧
    (exec t (gl.draw_finish_calls mesh p tex)).blendSrc = t.blendSrc ∧
    (exec t (gl.draw_finish_calls mesh p tex)).blendDst = t.blendDst := by
  have h2 : (0 : Rat) < 2 := by norm_num
  simp [gl.draw_finish_calls, exec_cons, exec_nil, exec1, drainError, glDisableCap,
        recordError, hp, h2]

theorem exec_setup (s : GLState) (mesh : Mesh) (shader : Shader) (scissor : Bool) :
    (exec s (gl.draw_setup_calls mesh shader scissor)).cullFaceEnabled = false ∧
    (exec s (gl.draw_setup_calls mesh shader scissor)).depthTestEnabled = false ∧
    (exec s (gl.draw_setup_calls mesh shader scissor)).blendEquationMode = GL_FUNC_ADD ∧
    (exec s (gl.draw_setup_calls mesh shader scissor)).blendSrc = GL_SRC_ALPHA ∧
    (exec s (gl.draw_setup_calls mesh shader scissor)).blendDst = GL_ONE_MINUS_SRC_ALPHA := by
  by_cases hsc : scissor <;>
    by_cases hup : shader.handle = 0 ∨ shader.handle ∈ s.validPrograms <;>
      simp [gl.draw_setup_calls, exec_cons, exec_nil, exec1, drainError,
            glEnableCap, glDisableCap, recordError, hsc, hup]

theorem draw_mesh_split (s : GLState) (mesh : Mesh) (shader : Shader)
    (scissor : Bool) (args : List UniformArg) :
    (gl.draw_mesh s mesh shader scissor args).1 =
      exec (exec (exec (exec s (gl.draw_setup_calls mesh shader scissor))
          (gl.draw_uniform_calls shader args 0)) (gl.set_vertex_attribs shader))
        (gl.draw_finish_calls mesh s.currentProgram s.textureBinding2D) := by
  simp [gl.draw_mesh, exec_append]

/-- C1: gl::draw_mesh restores the snapshotted program and 2D texture
binding: for every initial context whose current program is valid (the
driver invariant for GL_CURRENT_PROGRAM), and for every mesh, shader,
scissor flag and argument list, including shaders whose handle is invalid
and attribute or uniform slots holding the -1 sentinel, whose calls fail
mid-sequence without aborting it, the program and the 2D texture bound
after the call equal the ones bound immediately before it. -/
theorem draw_mesh_restores_program_and_texture (s : GLState) (mesh : Mesh)
    (shader : Shader) (scissor : Bool) (args : List UniformArg)
    (h : s.currentProgram = 0 ∨ s.currentProgram ∈ s.validPrograms) :
    (gl.draw_mesh s mesh shader scissor args).1.currentProgram = s.currentProgram ∧
    (gl.draw_mesh s mesh shader scissor args).1.textureBinding2D = s.textureBinding2D := by
  rw [draw_mesh_split]
  have hvp : (exec (exec (exec s (gl.draw_setup_calls mesh shader scissor))
      (gl.draw_uniform_calls shader args 0)) (gl.set_vertex_attribs shader)).validPrograms =
      s.validPrograms := by
    rw [exec_validPrograms, exec_validPrograms, exec_validPrograms]
  have hp : s.currentProgram = 0 ∨ s.currentProgram ∈
      (exec (exec (exec s (gl.draw_setup_calls mesh shader scissor))
        (gl.draw_uniform_calls shader args 0)) (gl.set_vertex_attribs shader)).validPrograms := by
    rw [hvp]; exact h
  obtain ⟨h1, h2, _⟩ := exec_finish _ mesh s.currentProgram s.textureBinding2D hp
  exact ⟨h1, h2⟩

/-- C1 witness: the theorem instantiated at a concrete context and a shader
whose program handle is invalid, so that glUseProgram fails mid-draw; the
snapshotted program and texture are still restored. -/
theorem draw_mesh_restores_program_and_texture_witness :
    (sampleState.currentProgram = 0 ∨
        sampleState.currentProgram ∈ sampleState.validPrograms) ∧
    badShader.handle ∉ sampleState.validPrograms ∧
    ((gl.draw_mesh sampleState sampleMesh badShader true [UniformArg.float 5]).1.currentProgram =
        sampleState.currentProgram ∧
     (gl.draw_mesh sampleState sampleMesh badShader true [UniformArg.float 5]).1.textureBinding2D =
        sampleState.textureBinding2D) :=
  ⟨by decide, by decide,
   draw_mesh_restores_program_and_texture sampleState sampleMesh badShader true
     [UniformArg.float 5] (by decide)⟩

/-- C5 counterexample: gl::draw_mesh does not restore every piece of global
GPU state it modifies: at a concrete context with depth testing enabled and
line width 1, the depth test is disabled and the line width is 2 after the
call, unlike the values immediately before the call. -/
theorem draw_mesh_not_all_state_restored :
    sampleState.depthTestEnabled = true ∧
    (gl.draw_mesh sampleState sampleMesh sentinelShader false []).1.depthTestEnabled = false ∧
    sampleState.lineWidth = 1 ∧
    (gl.draw_mesh sampleState sampleMesh sentinelShader false []).1.lineWidth = 2 := by
  refine ⟨rfl, by decide, rfl, by decide⟩

/-- C5 amended: of the global GPU state gl::draw_mesh modifies, only the
current program and the 2D texture binding are restored to their values
from immediately before the call; the array-buffer binding is left 0, blend
and scissor are left disabled, face culling and depth testing are left
disabled, the blend equation and functions are left at the source-over
policy values, and the line width is left at 2, for every initial context
satisfying the driver invariant that the current program is valid. -/
theorem draw_mesh_final_state (s : GLState) (mesh : Mesh) (shader : Shader)
    (scissor : Bool) (args : List UniformArg)
    (h : s.currentProgram = 0 ∨ s.currentProgram ∈ s.validPrograms) :
    (gl.draw_mesh s mesh shader scissor args).1.currentProgram = s.currentProgram ∧
    (gl.draw_mesh s mesh shader scissor args).1.textureBinding2D = s.textureBinding2D ∧
    (gl.draw_mesh s mesh shader scissor args).1.blendEnabled = false ∧
    (gl.draw_mesh s mesh shader scissor args).1.scissorTestEnabled = false ∧
    (gl.draw_mesh s mesh shader scissor args).1.cullFaceEnabled = false ∧
    (gl.draw_mesh s mesh shader scissor args).1.depthTestEnabled = false ∧
    (gl.draw_mesh s mesh shader scissor args).1.arrayBufferBinding = 0 ∧
    (gl.draw_mesh s mesh shader scissor args).1.lineWidth = 2 ∧
    (gl.draw_mesh s mesh shader scissor args).1.blendEquationMode = GL_FUNC_ADD ∧
    (gl.draw_mesh s mesh shader scissor args).1.blendSrc = GL_SRC_ALPHA ∧
    (gl.draw_mesh s mesh shader scissor args).1.blendDst = GL_ONE_MINUS_SRC_ALPHA := by
  rw [draw_mesh_split]
  have hvp : (exec (exec (exec s (gl.draw_setup_calls mesh shader scissor))
      (gl.draw_uniform_calls shader args 0)) (gl.set_vertex_attribs shader)).validPrograms =
      s.validPrograms := by
    rw [exec_validPrograms, exec_validPrograms, exec_validPrograms]
  have hp : s.currentProgram = 0 ∨ s.currentProgram ∈
      (exec (exec (exec s (gl.draw_setup_calls mesh shader scissor))
        (gl.draw_uniform_calls shader args 0)) (gl.set_vertex_attribs shader)).validPrograms := by
    rw [hvp]; exact h
  obtain ⟨f1, f2, f3, f4, f5, f6, f7, f8, f9, f10, f11⟩ :=
    exec_finish _ mesh s.currentProgram s.textureBinding2D hp
  obtain ⟨_, _, _, _, a5, a6, _, a8, a9, a10, _⟩ :=
    exec_passive (exec (exec s (gl.draw_setup_calls mesh shader scissor))
        (gl.draw_uniform_calls shader args 0)) (gl.set_vertex_attribs shader)
      (set_vertex_attribs_passive shader)
  obtain ⟨_, _, _, _, b5, b6, _, b8, b9, b10, _⟩ :=
    exec_passive (exec s (gl.draw_setup_calls mesh shader scissor))
        (gl.draw_uniform_calls shader args 0)
      (draw_uniform_calls_passive shader args 0)
  obtain ⟨s5, s6, s8, s9, s10⟩ := exec_setup s mesh shader scissor
  exact ⟨f1, f2, f3, f4,
         f7.trans (a5.trans (b5.trans s5)),
         f8.trans (a6.trans (b6.trans s6)),
         f5, f6,
         f9.trans (a8.trans (b8.trans s8)),
         f10.trans (a9.trans (b9.trans s9)),
         f11.trans (a10.trans (b10.trans s10))⟩

/-- C5 amended witness: the final-state theorem instantiated at a concrete
context, mesh, shader and argument list. -/
theorem draw_mesh_final_state_witness :
    (sampleState.currentProgram = 0 ∨
        sampleState.currentProgram ∈ sampleState.validPrograms) ∧
    ((gl.draw_mesh sampleState sampleMesh sentinelShader true []).1.currentProgram =
        sampleState.currentProgram ∧
     (gl.draw_mesh sampleState sampleMesh sentinelShader true []).1.textureBinding2D =
        sampleState.textureBinding2D ∧
     (gl.draw_mesh sampleState sampleMesh sentinelShader true []).1.blendEnabled = false ∧
     (gl.draw_mesh sampleState sampleMesh sentinelShader true []).1.scissorTestEnabled = false ∧
     (gl.draw_mesh sampleState sampleMesh sentinelShader true []).1.cullFaceEnabled = false ∧
     (gl.draw_mesh sampleState sampleMesh sentinelShader true []).1.depthTestEnabled = false ∧
     (gl.draw_mesh sampleState sampleMesh sentinelShader true []).1.arrayBufferBinding = 0 ∧
     (gl.draw_mesh sampleState sampleMesh sentinelShader true []).1.lineWidth = 2 ∧
     (gl.draw_mesh sampleState sampleMesh sentinelShader true []).1.blendEquationMode =
        GL_FUNC_ADD ∧
     (gl.draw_mesh sampleState sampleMesh sentinelShader true []).1.blendSrc = GL_SRC_ALPHA ∧
     (gl.draw_mesh sampleState sampleMesh sentinelShader true []).1.blendDst =
        GL_ONE_MINUS_SRC_ALPHA) :=
  ⟨by decide,
   draw_mesh_final_state sampleState sampleMesh sentinelShader true [] (by decide)⟩
